import Mathlib

/-!
Shallow embedding of the websys backend of the winit windowing library
(`src/platform_impl/websys/window.rs`), together with theorems settling the
spec's claims about it.  Host-environment effects (DOM element lookup, style
writes, bounding-rect reads, viewport queries) are modelled as explicit state;
Rust panics (`expect` / `unwrap` / the not-implemented stubs) are modelled as a
distinguished `halted` outcome, and `f64` quantities as exact rationals.
-/

namespace Websys

/-- Logical (DPI-independent) position, from the `dpi` module. -/
structure LogicalPosition where
  x : Rat
  y : Rat
deriving DecidableEq, Repr

/-- Logical (DPI-independent) size, from the `dpi` module. -/
structure LogicalSize where
  width : Rat
  height : Rat
deriving DecidableEq, Repr

/-- Physical position, from the `dpi` module. -/
structure PhysicalPosition where
  x : Rat
  y : Rat
deriving DecidableEq, Repr

/-- Physical size, from the `dpi` module. -/
structure PhysicalSize where
  width : Rat
  height : Rat
deriving DecidableEq, Repr

/-- A DOM bounding client rect: what `get_bounding_client_rect` returns. -/
structure DomRect where
  x : Rat
  y : Rat
  width : Rat
  height : Rat
deriving DecidableEq, Repr

/-- A CSS style declaration: the named style properties of an element,
as an association list (later writes shadow earlier ones). -/
structure Style where
  props : List (String × String)
deriving DecidableEq, Repr

/-- Embeds `style.set_property(name, value)`: write a named style property. -/
def Style.set_property (s : Style) (name value : String) : Style :=
  { props := (name, value) :: s.props }

/-- Read a named style property (empty string when never set). -/
def Style.getProperty (s : Style) (name : String) : String :=
  (((s.props.find? (fun p => p.1 == name)).map Prod.snd)).getD ""

/-- A DOM element as the backend observes it: whether it is (castable to) a
canvas, its current bounding rect, and its style declaration. -/
structure HtmlElement where
  isCanvas : Bool
  rect : DomRect
  style : Style
deriving DecidableEq, Repr

/-- The canvas element freshly created by `document.create_element("canvas")`:
a canvas with a default (zero) bounding box and no styled properties. -/
def freshCanvas : HtmlElement :=
  { isCanvas := true, rect := ⟨0, 0, 0, 0⟩, style := ⟨[]⟩ }

/-- Embeds `ElementSelection` from the source: select an existing canvas by id, or a
container in which to create a canvas. -/
inductive ElementSelection where
  | CanvasId : String → ElementSelection
  | ContainerId : String → ElementSelection
deriving DecidableEq, Repr

/-- The host document, as consumed by `Window::new`: element lookup by id,
and whether element creation and child appending succeed in the current
environment. -/
structure Document where
  elements : String → Option HtmlElement
  createElementOk : Bool
  appendChildOk : Bool

/-- The host global window (viewport), as consumed by
`MonitorHandle::dimensions`: `inner_width()` / `inner_height()` each return
`Ok` of a number or `Err`. -/
structure BrowserWindow where
  innerWidth : Except Unit Rat
  innerHeight : Except Unit Rat

/-- Embeds `NotSupportedError` from the `error` module (opaque unit value). -/
structure NotSupportedError where
deriving DecidableEq, Repr

/-- Embeds `NotSupportedError::new()`. -/
def NotSupportedError.new : NotSupportedError := {}

/-- Embeds `OsError` from the `error` module; `Window::new` produces one from a
failed DOM append via the `?` conversion. -/
structure OsError where
deriving DecidableEq, Repr

/-- Embeds `ExternalError` from the `error` module. -/
inductive ExternalError where
  | NotSupported : NotSupportedError → ExternalError
  | Os : OsError → ExternalError
deriving DecidableEq, Repr

/-- Embeds `Icon` from the `icon` module (opaque: its content never matters here). -/
structure Icon where
deriving DecidableEq, Repr

/-- Embeds `WindowId`: a field-less (unit) struct. -/
structure WindowId where
deriving DecidableEq, Repr

/-- Embeds `WindowId::dummy()`. -/
def WindowId.dummy : WindowId := {}

/-- Platform `MonitorHandle`: a field-less (unit) struct. -/
structure MonitorHandle where
deriving DecidableEq, Repr

/-- Embeds `MonitorHandle::name()`. -/
def MonitorHandle.name (_self : MonitorHandle) : Option String :=
  some "Browser Window"

/-- Embeds `MonitorHandle::dimensions()`: reads the live viewport, substituting 0.0
on an `Err` from the width/height query. -/
def MonitorHandle.dimensions (_self : MonitorHandle) (win : BrowserWindow) :
    PhysicalSize :=
  let w := match win.innerWidth with
    | .ok v => v
    | .error _ => 0
  let h := match win.innerHeight with
    | .ok v => v
    | .error _ => 0
  ⟨w, h⟩

/-- Embeds `MonitorHandle::position()`. -/
def MonitorHandle.position (_self : MonitorHandle) : PhysicalPosition :=
  ⟨0, 0⟩

/-- Embeds `MonitorHandle::hidpi_factor()`. -/
def MonitorHandle.hidpi_factor (_self : MonitorHandle) : Rat :=
  1

/-- The crate-level `monitor::MonitorHandle`, which wraps the platform handle.
Modelled from the spec: the wrapper type lives outside this file; the source
constructs it as a record with an `inner` platform handle
(`::monitor::MonitorHandle{ inner: MonitorHandle{} }`). -/
structure RootMonitorHandle where
  inner : MonitorHandle
deriving DecidableEq, Repr

/-- The abstract cursor-icon enum (`::window::CursorIcon`).
Modelled from the spec: the enum is declared outside this file; its variants
are the ones the source's match arms name explicitly, plus the unmapped
("unrecognized/wildcard") variants the spec alludes to, which the source's
catch-all arm sends to "auto". -/
inductive CursorIcon where
  | Default | Crosshair | Hand | Arrow | Move | Text | Wait | Help | Progress
  | NotAllowed | ContextMenu | Cell | VerticalText | Alias | Copy | NoDrop
  | Grab | Grabbing | AllScroll | ZoomIn | ZoomOut
  | EResize | NResize | NeResize | NwResize
  | SResize | SeResize | SwResize | WResize
  | EwResize | NsResize | NeswResize | NwseResize
  | ColResize | RowResize
deriving DecidableEq, Repr

/-- The keyword chosen by `set_cursor_icon`'s match expression. -/
def cursorStyle (cursor : CursorIcon) : String :=
  match cursor with
  | .Crosshair => "crosshair"
  | .Hand => "pointer"
  | .Move => "move"
  | .Text => "text"
  | .Wait => "wait"
  | .Help => "help"
  | .Progress => "progress"
  | .NotAllowed => "not-allowed"
  | .ContextMenu => "context-menu"
  | .Cell => "cell"
  | .VerticalText => "vertical-text"
  | .Alias => "alias"
  | .Copy => "copy"
  | .NoDrop => "no-drop"
  | .EResize => "e-resize"
  | .NResize => "n-resize"
  | .NeResize => "ne-resize"
  | .NwResize => "nw-resize"
  | .SResize => "s-resize"
  | .SeResize => "se-resize"
  | .SwResize => "sw-resize"
  | .WResize => "w-resize"
  | .EwResize => "ew-resize"
  | .NsResize => "ns-resize"
  | .NeswResize => "nesw-resize"
  | .NwseResize => "nwse-resize"
  | .ColResize => "col-resize"
  | .RowResize => "row-resize"
  | _ => "auto"

/-- The cursor-icon variants named by an explicit match arm of
`set_cursor_icon` (everything the catch-all `_ => "auto"` does not handle). -/
def explicitlyMatched : List CursorIcon :=
  [.Crosshair, .Hand, .Move, .Text, .Wait, .Help, .Progress,
   .NotAllowed, .ContextMenu, .Cell, .VerticalText, .Alias, .Copy, .NoDrop,
   .EResize, .NResize, .NeResize, .NwResize,
   .SResize, .SeResize, .SwResize, .WResize,
   .EwResize, .NsResize, .NeswResize, .NwseResize,
   .ColResize, .RowResize]

/-- The `Window` struct: the owned canvas element and the pending-redraw
cell.  The canvas field carries the element's observable state (bounding
rect and style), which mutators update in place. -/
structure Window where
  canvas : HtmlElement
  redraw_requested : Bool
deriving DecidableEq, Repr

/-- Outcome of a Rust call that may panic: either a normal return or a halt
(`unimplemented!`, a failed `expect`/`unwrap`). -/
inductive StubOutcome (α : Type) where
  | ok : α → StubOutcome α
  | halted : String → StubOutcome α
deriving DecidableEq, Repr

/-- Outcome of `Window::new`: a window, a typed `OsError`, or a halt. -/
inductive NewOutcome where
  | ok : Window → NewOutcome
  | err : OsError → NewOutcome
  | halted : String → NewOutcome
deriving DecidableEq, Repr

/-- Embeds `Window::new`: resolve the surface element per the selection (halting on
lookup and cast failures), append a freshly created canvas when a container
was named (the `?` on `append_child` is the one typed error), and wrap the
element with the redraw flag initialized to `false`.  The
`target.setup_window` registration has no observable effect on the states
modelled here. -/
def Window.new (doc : Document) (sel : ElementSelection) : NewOutcome :=
  match sel with
  | .CanvasId id =>
    match doc.elements id with
    | none => .halted ("No canvas with ID " ++ id ++ " found")
    | some el =>
      if el.isCanvas then
        .ok { canvas := el, redraw_requested := false }
      else
        .halted "dyn_into::<HtmlCanvasElement> failed"
  | .ContainerId id =>
    match doc.elements id with
    | none => .halted ("No container element with Id " ++ id ++ " found")
    | some _parent =>
      if doc.createElementOk then
        if doc.appendChildOk then
          .ok { canvas := freshCanvas, redraw_requested := false }
        else
          .err OsError.mk
      else
        .halted "Could not create a canvas"

/-- Embeds `Window::id()`. -/
def Window.id (_self : Window) : WindowId :=
  WindowId.dummy

/-- Embeds `Window::hidpi_factor()`. -/
def Window.hidpi_factor (_self : Window) : Rat :=
  1

/-- Embeds `Window::request_redraw()`. -/
def Window.request_redraw (self : Window) : Window :=
  { self with redraw_requested := true }

/-- Embeds `Window::inner_position()`: top-left of the canvas bounding rect. -/
def Window.inner_position (self : Window) :
    Except NotSupportedError LogicalPosition :=
  .ok ⟨self.canvas.rect.x, self.canvas.rect.y⟩

/-- Embeds `Window::outer_position()`: delegates to `inner_position`. -/
def Window.outer_position (self : Window) :
    Except NotSupportedError LogicalPosition :=
  self.inner_position

/-- Embeds `Window::inner_size()`: width/height of the canvas bounding rect. -/
def Window.inner_size (self : Window) : LogicalSize :=
  ⟨self.canvas.rect.width, self.canvas.rect.height⟩

/-- Embeds `Window::outer_size()`: delegates to `inner_size`. -/
def Window.outer_size (self : Window) : LogicalSize :=
  self.inner_size

/-- Embeds `Window::set_outer_position`: `unimplemented!()`. -/
def Window.set_outer_position (_self : Window) (_position : LogicalPosition) :
    StubOutcome Unit :=
  .halted "not implemented"

/-- Embeds `Window::set_inner_size`: `unimplemented!()`. -/
def Window.set_inner_size (_self : Window) (_size : LogicalSize) :
    StubOutcome Unit :=
  .halted "not implemented"

/-- Embeds `Window::set_min_inner_size`: `unimplemented!()`. -/
def Window.set_min_inner_size (_self : Window)
    (_dimensions : Option LogicalSize) : StubOutcome Unit :=
  .halted "not implemented"

/-- Embeds `Window::set_max_inner_size`: `unimplemented!()`. -/
def Window.set_max_inner_size (_self : Window)
    (_dimensions : Option LogicalSize) : StubOutcome Unit :=
  .halted "not implemented"

/-- Embeds `Window::set_title`: `unimplemented!()`. -/
def Window.set_title (_self : Window) (_title : String) : StubOutcome Unit :=
  .halted "not implemented"

/-- Embeds `Window::set_visible`: `unimplemented!()`. -/
def Window.set_visible (_self : Window) (_visible : Bool) : StubOutcome Unit :=
  .halted "not implemented"

/-- Embeds `Window::set_resizable`: `unimplemented!()`. -/
def Window.set_resizable (_self : Window) (_resizable : Bool) :
    StubOutcome Unit :=
  .halted "not implemented"

/-- Embeds `Window::set_window_icon`: `unimplemented!()`. -/
def Window.set_window_icon (_self : Window) (_window_icon : Option Icon) :
    StubOutcome Unit :=
  .halted "not implemented"

/-- Embeds `Window::set_maximized`: a no-op. -/
def Window.set_maximized (self : Window) (_maximized : Bool) : Window :=
  self

/-- Embeds `Window::set_fullscreen`: a no-op. -/
def Window.set_fullscreen (self : Window)
    (_monitor : Option RootMonitorHandle) : Window :=
  self

/-- Embeds `Window::fullscreen()`: always `None`. -/
def Window.fullscreen (_self : Window) : Option RootMonitorHandle :=
  none

/-- Embeds `Window::set_decorations`: a no-op. -/
def Window.set_decorations (self : Window) (_decorations : Bool) : Window :=
  self

/-- Embeds `Window::set_always_on_top`: a no-op. -/
def Window.set_always_on_top (self : Window) (_always_on_top : Bool) :
    Window :=
  self

/-- Embeds `Window::set_ime_position`: a no-op. -/
def Window.set_ime_position (self : Window) (_position : LogicalPosition) :
    Window :=
  self

/-- Embeds `Window::set_cursor_icon`: write the chosen keyword to the canvas's
"cursor" style property (the `unwrap` on the style write is the only halt
site; the style write itself is total here). -/
def Window.set_cursor_icon (self : Window) (cursor : CursorIcon) : Window :=
  { self with canvas :=
      { self.canvas with style :=
          self.canvas.style.set_property "cursor" (cursorStyle cursor) } }

/-- Embeds `Window::set_cursor_position`: always `Err(NotSupported)`; the window is
untouched, so the unchanged state is returned alongside the result. -/
def Window.set_cursor_position (self : Window) (_position : LogicalPosition) :
    Except ExternalError Unit × Window :=
  (.error (ExternalError.NotSupported NotSupportedError.new), self)

/-- Embeds `Window::set_cursor_grab`: always `Err(NotSupported)`; the window is
untouched, so the unchanged state is returned alongside the result. -/
def Window.set_cursor_grab (self : Window) (_grab : Bool) :
    Except ExternalError Unit × Window :=
  (.error (ExternalError.NotSupported NotSupportedError.new), self)

/-- Embeds `Window::set_cursor_visible`: writes "none" when `visible` is true and
"auto" when it is false. -/
def Window.set_cursor_visible (self : Window) (visible : Bool) : Window :=
  if visible then
    { self with canvas :=
        { self.canvas with style :=
            self.canvas.style.set_property "cursor" "none" } }
  else
    { self with canvas :=
        { self.canvas with style :=
            self.canvas.style.set_property "cursor" "auto" } }

/-- Embeds `Window::current_monitor()`. -/
def Window.current_monitor (_self : Window) : RootMonitorHandle :=
  { inner := MonitorHandle.mk }

/-- Embeds `Window::available_monitors()` (`VecDeque` modelled as a list). -/
def Window.available_monitors (_self : Window) : List MonitorHandle :=
  [MonitorHandle.mk]

/-- Embeds `Window::primary_monitor()`. -/
def Window.primary_monitor (_self : Window) : MonitorHandle :=
  MonitorHandle.mk

/-- Reading a property right after writing it yields the written value. -/
theorem Style.getProperty_set_property (s : Style) (n v : String) :
    (s.set_property n v).getProperty n = v := by
  simp [Style.set_property, Style.getProperty, List.find?]

/-- An example container element used to exercise the construction path. -/
def containerEl : HtmlElement :=
  { isCanvas := false, rect := ⟨0, 0, 0, 0⟩, style := ⟨[]⟩ }

/-- An example document holding a container with id "app" in which appending
a child fails. -/
def docAppendFails : Document :=
  { elements := fun id => if id == "app" then some containerEl else none,
    createElementOk := true,
    appendChildOk := false }

/-- Claim C1: for every Window, `set_cursor_visible true` writes "none" to
the surface element's "cursor" style property and `set_cursor_visible false`
writes "auto" — the inversion of the parameter's name is preserved exactly. -/
theorem c1_set_cursor_visible_inversion (w : Window) :
    (w.set_cursor_visible true).canvas.style.getProperty "cursor" = "none" ∧
    (w.set_cursor_visible false).canvas.style.getProperty "cursor" = "auto" := by
  constructor <;>
    simp [Window.set_cursor_visible, Style.getProperty_set_property]

/-- Claim C2: for every Window and argument, each of the eight unimplemented
setters reaches the halt branch and never returns normally. -/
theorem c2_unimplemented_stubs_halt (w : Window) (p : LogicalPosition)
    (sz : LogicalSize) (d : Option LogicalSize) (t : String) (b : Bool)
    (ic : Option Icon) :
    w.set_outer_position p = .halted "not implemented" ∧
    w.set_inner_size sz = .halted "not implemented" ∧
    w.set_min_inner_size d = .halted "not implemented" ∧
    w.set_max_inner_size d = .halted "not implemented" ∧
    w.set_title t = .halted "not implemented" ∧
    w.set_visible b = .halted "not implemented" ∧
    w.set_resizable b = .halted "not implemented" ∧
    w.set_window_icon ic = .halted "not implemented" ∧
    (∀ u : Unit,
      w.set_outer_position p ≠ .ok u ∧ w.set_inner_size sz ≠ .ok u ∧
      w.set_min_inner_size d ≠ .ok u ∧ w.set_max_inner_size d ≠ .ok u ∧
      w.set_title t ≠ .ok u ∧ w.set_visible b ≠ .ok u ∧
      w.set_resizable b ≠ .ok u ∧ w.set_window_icon ic ≠ .ok u) := by
  refine ⟨rfl, rfl, rfl, rfl, rfl, rfl, rfl, rfl, fun u => ?_⟩
  refine ⟨?_, ?_, ?_, ?_, ?_, ?_, ?_, ?_⟩ <;> intro h <;> cases h

/-- Claim C3: for every Window and argument, `set_maximized`,
`set_fullscreen`, `set_decorations`, `set_always_on_top` and
`set_ime_position` return normally and leave the whole window state — the
canvas handle with all its style properties, and the pending-redraw flag —
exactly unchanged. -/
theorem c3_silent_noops (w : Window) (b : Bool)
    (m : Option RootMonitorHandle) (p : LogicalPosition) :
    w.set_maximized b = w ∧
    w.set_fullscreen m = w ∧
    w.set_decorations b = w ∧
    w.set_always_on_top b = w ∧
    w.set_ime_position p = w :=
  ⟨rfl, rfl, rfl, rfl, rfl⟩

/-- Claim C4: for every Window and argument, `set_cursor_position` and
`set_cursor_grab` return the typed NotSupported error variant (never Ok) and
leave the window state unchanged. -/
theorem c4_cursor_position_grab_not_supported (w : Window)
    (p : LogicalPosition) (g : Bool) :
    w.set_cursor_position p =
      (.error (ExternalError.NotSupported NotSupportedError.new), w) ∧
    w.set_cursor_grab g =
      (.error (ExternalError.NotSupported NotSupportedError.new), w) ∧
    (∀ u : Unit,
      (w.set_cursor_position p).1 ≠ .ok u ∧
      (w.set_cursor_grab g).1 ≠ .ok u) := by
  refine ⟨rfl, rfl, fun u => ⟨?_, ?_⟩⟩ <;> intro h <;> cases h

/-- Claim C5: for every Window (hence for every state of the canvas's
bounding box), `outer_position` returns exactly `inner_position`'s result and
`outer_size` returns exactly `inner_size`'s result; both read the live
bounding rect. -/
theorem c5_outer_delegates_to_inner (w : Window) :
    w.outer_position = w.inner_position ∧
    w.outer_size = w.inner_size ∧
    w.inner_position = .ok ⟨w.canvas.rect.x, w.canvas.rect.y⟩ ∧
    w.inner_size = ⟨w.canvas.rect.width, w.canvas.rect.height⟩ :=
  ⟨rfl, rfl, rfl, rfl⟩

/-- Claim C6: for every constructed Window and every MonitorHandle,
`hidpi_factor` returns exactly the constant 1.0. -/
theorem c6_hidpi_factor_is_one (w : Window) (m : MonitorHandle) :
    w.hidpi_factor = 1 ∧ m.hidpi_factor = 1 :=
  ⟨rfl, rfl⟩

/-- Claim C7: `set_cursor_icon` is total over the cursor-icon enum: every
variant maps to a non-empty keyword, every variant not named by an explicit
match arm maps to "auto", the named mappings (Crosshair to "crosshair", Hand
to "pointer", the twelve directional resize variants to their hyphenated
compass keywords) hold, and the chosen keyword is written to the surface
element's "cursor" style property, with no error in the result type. -/
theorem c7_set_cursor_icon_total (c : CursorIcon) :
    cursorStyle c ≠ "" ∧
    (c ∉ explicitlyMatched → cursorStyle c = "auto") ∧
    cursorStyle .Crosshair = "crosshair" ∧
    cursorStyle .Hand = "pointer" ∧
    cursorStyle .EResize = "e-resize" ∧
    cursorStyle .NResize = "n-resize" ∧
    cursorStyle .NeResize = "ne-resize" ∧
    cursorStyle .NwResize = "nw-resize" ∧
    cursorStyle .SResize = "s-resize" ∧
    cursorStyle .SeResize = "se-resize" ∧
    cursorStyle .SwResize = "sw-resize" ∧
    cursorStyle .WResize = "w-resize" ∧
    cursorStyle .EwResize = "ew-resize" ∧
    cursorStyle .NsResize = "ns-resize" ∧
    cursorStyle .NeswResize = "nesw-resize" ∧
    cursorStyle .NwseResize = "nwse-resize" ∧
    ∀ w : Window,
      (w.set_cursor_icon c).canvas.style.getProperty "cursor" =
        cursorStyle c := by
  refine ⟨?_, ?_, rfl, rfl, rfl, rfl, rfl, rfl, rfl, rfl, rfl, rfl, rfl,
    rfl, rfl, rfl, fun w => ?_⟩
  · cases c <;> decide
  · cases c <;> decide
  · simp [Window.set_cursor_icon, Style.getProperty_set_property]

/-- Witness for C7 at the concrete variants Grab (not explicitly matched,
so mapped to "auto") and Crosshair. -/
theorem c7_set_cursor_icon_total_witness :
    cursorStyle CursorIcon.Grab = "auto" ∧
    cursorStyle CursorIcon.Crosshair = "crosshair" :=
  ⟨(c7_set_cursor_icon_total CursorIcon.Grab).2.1 (by decide),
   (c7_set_cursor_icon_total CursorIcon.Crosshair).2.2.1⟩

/-- Claim C8: for every Window, `available_monitors` returns exactly one
handle, and `current_monitor` and `primary_monitor` describe that same single
display: equal handles, and equal dimensions, position, scale factor and name
when queried against the same viewport state. -/
theorem c8_single_consistent_monitor (w : Window) :
    (w.available_monitors).length = 1 ∧
    w.available_monitors = [w.primary_monitor] ∧
    (w.current_monitor).inner = w.primary_monitor ∧
    (∀ bw : BrowserWindow,
      (w.current_monitor).inner.dimensions bw =
        (w.primary_monitor).dimensions bw) ∧
    (w.current_monitor).inner.position = (w.primary_monitor).position ∧
    (w.current_monitor).inner.hidpi_factor =
      (w.primary_monitor).hidpi_factor ∧
    (w.current_monitor).inner.name = (w.primary_monitor).name :=
  ⟨rfl, rfl, rfl, fun _ => rfl, rfl, rfl, rfl⟩

/-- Claim C9: in `Window::new`, the only outcome reported as a recoverable
typed error arises on the ContainerId path with the container present and the
canvas created, i.e. at the append step; lookup failures for caller-supplied
ids and the canvas type-cast failure halt instead; and every successful
construction returns a window whose pending-redraw flag is false. -/
theorem c9_new_error_policy (doc : Document) :
    (∀ sel e, Window.new doc sel = .err e →
      ∃ id el, sel = .ContainerId id ∧ doc.elements id = some el ∧
        doc.createElementOk = true ∧ doc.appendChildOk = false) ∧
    (∀ sel w, Window.new doc sel = .ok w → w.redraw_requested = false) ∧
    (∀ id, doc.elements id = none →
      Window.new doc (.CanvasId id) =
        .halted ("No canvas with ID " ++ id ++ " found") ∧
      Window.new doc (.ContainerId id) =
        .halted ("No container element with Id " ++ id ++ " found")) ∧
    (∀ id el, doc.elements id = some el → el.isCanvas = false →
      Window.new doc (.CanvasId id) =
        .halted "dyn_into::<HtmlCanvasElement> failed") := by
  refine ⟨?_, ?_, ?_, ?_⟩
  · intro sel e h
    cases sel with
    | CanvasId id =>
      cases hel : doc.elements id with
      | none => simp [Window.new, hel] at h
      | some el =>
        cases hc : el.isCanvas with
        | false => simp [Window.new, hel, hc] at h
        | true => simp [Window.new, hel, hc] at h
    | ContainerId id =>
      cases hel : doc.elements id with
      | none => simp [Window.new, hel] at h
      | some el =>
        cases hce : doc.createElementOk with
        | false => simp [Window.new, hel, hce] at h
        | true =>
          cases hap : doc.appendChildOk with
          | false =>
            exact ⟨id, el, rfl, by simp [hel], by simp [hce], by simp [hap]⟩
          | true => simp [Window.new, hel, hce, hap] at h
  · intro sel w h
    cases sel with
    | CanvasId id =>
      cases hel : doc.elements id with
      | none => simp [Window.new, hel] at h
      | some el =>
        cases hc : el.isCanvas with
        | false => simp [Window.new, hel, hc] at h
        | true =>
          simp [Window.new, hel, hc] at h
          subst h
          rfl
    | ContainerId id =>
      cases hel : doc.elements id with
      | none => simp [Window.new, hel] at h
      | some el =>
        cases hce : doc.createElementOk with
        | false => simp [Window.new, hel, hce] at h
        | true =>
          cases hap : doc.appendChildOk with
          | false => simp [Window.new, hel, hce, hap] at h
          | true =>
            simp [Window.new, hel, hce, hap] at h
            subst h
            rfl
  · intro id hel
    exact ⟨by simp [Window.new, hel], by simp [Window.new, hel]⟩
  · intro id el hel hc
    simp [Window.new, hel, hc]

/-- Witness for C9 at a concrete document whose append step fails: the
construction really does return the typed error there, and the theorem's
first clause applies. -/
theorem c9_new_error_policy_witness :
    ∃ id el, ElementSelection.ContainerId "app" =
        ElementSelection.ContainerId id ∧
      docAppendFails.elements id = some el ∧
      docAppendFails.createElementOk = true ∧
      docAppendFails.appendChildOk = false :=
  (c9_new_error_policy docAppendFails).1
    (ElementSelection.ContainerId "app") OsError.mk rfl

/-- Claim C10 (implicit): `Window::id()` returns the same single WindowId
value for every Window and every call — WindowId is a unit type, so any two
windows' ids are equal, equal to `WindowId::dummy()`, and any two WindowId
values whatsoever are equal. -/
theorem c10_window_id_is_unit (wa wb : Window) :
    wa.id = wb.id ∧
    wa.id = WindowId.dummy ∧
    (∀ a b : WindowId, a = b) :=
  ⟨rfl, rfl, fun _ _ => rfl⟩

end Websys
